import Mathlib

/-!
Verification of the eventual-consistency reconciliation engine of a
Terraform provider: the generic read poller (`readWithWaitFor` in
`tailscale/provider.go`) and the conditional-recreate decision logic of the
tailnet-key resource (`shouldRecreateIfInvalid`, `resourceTailnetKeyDiff`,
`resourceTailnetKeyRead` in `tailscale/resource_tailnet_key.go`).

The Go code is shallowly embedded as executable Lean functions.  Time is
modelled in nanoseconds (`Nat`), matching Go's `time.Duration` unit; one
second is the interval-ticker period used by the poller.  The polling loop
(a `select` over a cancellation channel, a deadline ticker and a one-second
interval ticker) is modelled as a deterministic event simulation:

  * each wake-up source has a fire time (cancellation at `cancelAt`, the
    deadline ticker at `D`, the interval ticker at `(n+1)` seconds after
    `n` consumed interval ticks);
  * the earliest fire time wins; when cancellation ties with a ticker it
    wins (the spec's "cancellation is checked preemptively, first-to-fire"
    reading of the select); a tie between the two tickers is resolved by an
    arbitrary oracle `tb` (Go's select chooses uniformly at random among
    ready cases), and all theorems hold for every oracle;
  * read invocations themselves are instantaneous, so only timers advance
    the clock.

Go's `time.NewTicker` panics when given a non-positive duration; this is
modelled by the distinguished outcome `PollOutcome.panicked` (negative
durations are not representable in the `Nat` duration model, but a parsed
duration of zero is, e.g. `wait_for = "0s"`).
-/

namespace TailscaleProvider

/-- One entry of a `diag.Diagnostics` value: severity (error or not),
summary and detail strings. -/
structure Diagnostic where
  isError : Bool
  summary : String
  detail : String
deriving DecidableEq, Repr

/-- The `diag.Diagnostics` type: a list of diagnostics. -/
abbrev Diagnostics := List Diagnostic

/-- The `HasError` method of `diag.Diagnostics`: true when some entry has
error severity. -/
def hasError (d : Diagnostics) : Bool := d.any (fun x => x.isError)

/-- The duration `time.Second` in nanoseconds, used as the interval-ticker
period of the poller. -/
def second : Nat := 1000000000

/-- Provenance-tagged return value of `readWithWaitFor`.  Each constructor
corresponds to one distinct return site of the Go function:
`readResult` for a return of some invocation's diagnostics (provider.go
lines 255, 260, 280 and 287), `parseFailure` for the `failed to parse
wait_for` diagnostics (line 265), `cancelled` for `diag.FromErr(ctx.Err())`
(line 278), and `panicked` for the runtime panic raised by
`time.NewTicker` on a non-positive duration (line 268 and 271). -/
inductive PollOutcome where
  | readResult (d : Diagnostics)
  | parseFailure (waitFor : String)
  | cancelled
  | panicked
deriving DecidableEq, Repr

/-- Environment of one `readWithWaitFor` execution: `fn k` is the
diagnostics produced by the k-th (0-based) invocation of the wrapped read
operation, `waitFor` is the resource's `wait_for` attribute, `parse` models
`time.ParseDuration` (`none` on a malformed string, otherwise the duration
in nanoseconds), `cancelAt` is the absolute time at which the cancellation
context's done channel fires (if ever), and `tb n` resolves a simultaneous
deadline/interval ticker race at loop iteration `n` (`true` means the
deadline ticker is selected). -/
structure PollEnv where
  fn : Nat → Diagnostics
  waitFor : String
  parse : String → Option Nat
  cancelAt : Option Nat
  tb : Nat → Bool

/-- Instrumented result of one `readWithWaitFor` execution: the outcome,
the total number of invocations of the wrapped read operation, the time (in
nanoseconds from entry) at which the function returned, whether the wait
policy was ever parsed, and whether the timer-based retry loop was
entered. -/
structure PollReport where
  outcome : PollOutcome
  calls : Nat
  retTime : Nat
  parsedPolicy : Bool
  enteredLoop : Bool
deriving DecidableEq, Repr

/-- Whether the cancellation channel wins the select at a point where the
deadline ticker would fire at `D` and the interval ticker at `tInt`: it
must have fired (at `c`) no later than both. -/
def cancelWins (cancelAt : Option Nat) (D tInt : Nat) : Bool :=
  match cancelAt with
  | none => false
  | some c => decide (c ≤ D) && decide (c ≤ tInt)

/-- Whether the deadline ticker (firing at `D`) wins the select against the
interval ticker (firing at `tInt`), given the tie-break choice `tbChoice`
for a simultaneous fire. -/
def maxWins (tbChoice : Bool) (D tInt : Nat) : Bool :=
  decide (D < tInt) || (decide (D = tInt) && tbChoice)

/-- The retry loop of `readWithWaitFor` (provider.go lines 275-289),
simulated event by event.  `n` counts the interval ticks consumed so far
(so the next interval fire is at `(n+1)` seconds from loop entry), `calls`
counts the invocations of the read operation performed so far, and `d`
retains the most recent failure diagnostics.  `fuel` is a structural bound
on the number of simulated events; the loop itself terminates because the
interval ticker can win at most `D / second` times before the deadline
ticker's fire time is strictly earliest, and callers pass fuel exceeding
that bound. -/
def pollLoop (env : PollEnv) (D : Nat) : Nat → Nat → Nat → Diagnostics → PollReport
  | 0, n, calls, d =>
      { outcome := .readResult d, calls := calls, retTime := n * second,
        parsedPolicy := true, enteredLoop := true }
  | fuel + 1, n, calls, d =>
      let tInt := (n + 1) * second
      if cancelWins env.cancelAt D tInt then
        { outcome := .cancelled, calls := calls, retTime := env.cancelAt.getD 0,
          parsedPolicy := true, enteredLoop := true }
      else if maxWins (env.tb n) D tInt then
        { outcome := .readResult d, calls := calls, retTime := D,
          parsedPolicy := true, enteredLoop := true }
      else
        let dNext := env.fn calls
        if hasError dNext then
          pollLoop env D fuel (n + 1) (calls + 1) dNext
        else
          { outcome := .readResult dNext, calls := calls + 1, retTime := tInt,
            parsedPolicy := true, enteredLoop := true }

/-- The poller `readWithWaitFor` (provider.go lines 248-291).  It invokes
the read operation once; on success it returns that result.  On failure
with an empty `wait_for` it invokes the operation once more and returns
that second result.  Otherwise it parses the wait policy (reporting a
parse failure as a distinct diagnostics value), creates the two tickers
(which panics on a zero duration, as Go's `time.NewTicker` does) and
enters the retry loop with the first failure retained. -/
def readWithWaitFor (env : PollEnv) : PollReport :=
  let d0 := env.fn 0
  if hasError d0 then
    if env.waitFor = "" then
      { outcome := .readResult (env.fn 1), calls := 2, retTime := 0,
        parsedPolicy := false, enteredLoop := false }
    else
      match env.parse env.waitFor with
      | none =>
          { outcome := .parseFailure env.waitFor, calls := 1, retTime := 0,
            parsedPolicy := true, enteredLoop := false }
      | some D =>
          if D = 0 then
            { outcome := .panicked, calls := 1, retTime := 0,
              parsedPolicy := true, enteredLoop := false }
          else
            pollLoop env D (D / second + 2) 0 1 d0
  else
    { outcome := .readResult d0, calls := 1, retTime := 0,
      parsedPolicy := false, enteredLoop := false }

/-- The remote auth key (`tailscale.Key`) as far as the tailnet-key
resource consults it.  The nested Go fields
`Capabilities.Devices.Create.{Reusable, Ephemeral, Preauthorized, Tags}`
are flattened; the formatted creation and expiry timestamps are kept as
opaque strings. -/
structure Key where
  id : String
  keyType : String
  key : String
  description : String
  expirySeconds : Nat
  created : String
  expires : String
  invalid : Bool
  userID : String
  reusable : Bool
  ephemeral : Bool
  preauthorized : Bool
  tags : List String
deriving DecidableEq, Repr

/-- Result of one `client.Keys().Get` call, split into the three cases the
resource code distinguishes: success (`err == nil`), a not-found error
(`tailscale.IsNotFound(err)`), and any other error. -/
inductive Lookup where
  | found (k : Key)
  | notFound
  | otherError (e : String)
deriving DecidableEq, Repr

/-- The recreate decider `shouldRecreateIfInvalid`
(resource_tailnet_key.go lines 192-200): `always` forces recreation,
`never` forbids it, anything else defaults to the `reusable` flag. -/
def shouldRecreateIfInvalid (reusable : Bool) (recreateIfInvalid : String) : Bool :=
  if recreateIfInvalid = "always" then true
  else if recreateIfInvalid = "never" then false
  else reusable

/-- Inputs of `resourceTailnetKeyDiff` as read from the `ResourceDiff`:
the previous and current values of the `recreate_if_invalid` attribute
(from `d.GetChange`; `d.Get` returns the current value) and the current
`reusable` flag. -/
structure DiffState where
  oldRecreateIfInvalid : String
  recreateIfInvalid : String
  reusable : Bool
deriving DecidableEq, Repr

/-- Instrumented result of `resourceTailnetKeyDiff`: the returned error (if
any), whether `d.ForceNew("recreate_if_invalid")` was called, and how many
times the remote lookup `client.Keys().Get` was invoked. -/
structure DiffReport where
  err : Option String
  forceNew : Bool
  lookupCalls : Nat
deriving DecidableEq, Repr

/-- The recreate-decision diff hook `resourceTailnetKeyDiff`
(resource_tailnet_key.go lines 204-221).  When the policy is unchanged, or
the decider says no recreation, it returns nil without any remote call.
Otherwise it performs the remote lookup and flags the attribute for forced
replacement when the key is not found or is found invalid; in every case
it returns nil (the Go function's only return statement after the lookup
is `return nil`, so a lookup error other than not-found is dropped). -/
def resourceTailnetKeyDiff (d : DiffState) (lookup : Lookup) : DiffReport :=
  if d.oldRecreateIfInvalid = d.recreateIfInvalid then
    { err := none, forceNew := false, lookupCalls := 0 }
  else if shouldRecreateIfInvalid d.reusable d.recreateIfInvalid = false then
    { err := none, forceNew := false, lookupCalls := 0 }
  else
    match lookup with
    | .notFound => { err := none, forceNew := true, lookupCalls := 1 }
    | .found k =>
        if k.invalid then { err := none, forceNew := true, lookupCalls := 1 }
        else { err := none, forceNew := false, lookupCalls := 1 }
    | .otherError _ => { err := none, forceNew := false, lookupCalls := 1 }

/-- The stored state of a tailnet-key resource as `resourceTailnetKeyRead`
manipulates it: the resource ID plus the schema attributes the read sets.
An empty `id` means the resource has been removed from state. -/
structure KeyResourceData where
  id : String
  reusable : Bool
  recreateIfInvalid : String
  ephemeral : Bool
  expiry : Nat
  createdAt : String
  expiresAt : String
  description : String
  invalid : Bool
  userID : String
  preauthorized : Bool
  tags : List String
deriving DecidableEq, Repr

/-- Result of `resourceTailnetKeyRead`: the resulting resource state and
the returned diagnostics (`none` for nil diagnostics, `some` carrying the
error summary). -/
structure ReadReport where
  data : KeyResourceData
  diags : Option String
deriving DecidableEq, Repr

/-- The read function `resourceTailnetKeyRead` (resource_tailnet_key.go
lines 223-292).  On a not-found lookup it clears the ID exactly when the
decider wants recreation, returning nil either way; any other lookup error
is returned as diagnostics; a found-but-invalid key with the decider in
favour clears the ID and returns nil; a key whose type is not `auth` is
rejected; otherwise every attribute is copied from the remote key (the
`d.Set` calls; their framework-level error returns are not modelled). -/
def resourceTailnetKeyRead (d : KeyResourceData) (lookup : Lookup) : ReadReport :=
  let recreateIfInvalid := shouldRecreateIfInvalid d.reusable d.recreateIfInvalid
  match lookup with
  | .notFound =>
      if recreateIfInvalid then { data := { d with id := "" }, diags := none }
      else { data := d, diags := none }
  | .otherError e => { data := d, diags := some ("Failed to fetch key: " ++ e) }
  | .found key =>
      if key.invalid && recreateIfInvalid then
        { data := { d with id := "" }, diags := none }
      else if key.keyType ≠ "auth" then
        { data := d, diags := some ("Invalid key type " ++ key.keyType) }
      else
        { data :=
            { id := key.id
              reusable := key.reusable
              recreateIfInvalid := d.recreateIfInvalid
              ephemeral := key.ephemeral
              expiry := key.expirySeconds
              createdAt := key.created
              expiresAt := key.expires
              description := key.description
              invalid := key.invalid
              userID := key.userID
              preauthorized := key.preauthorized
              tags := key.tags }
          diags := none }

/-! Concrete inputs used by witnesses and counterexamples. -/

/-- A failing remote-read diagnostics value, as produced by
`diagnosticsError` for a fetch failure. -/
def remoteFailure : Diagnostics :=
  [{ isError := true, summary := "Failed to fetch key", detail := "server error" }]

/-- Environment with an empty wait policy and a constantly failing read. -/
def envEmptyWait : PollEnv :=
  { fn := fun _ => remoteFailure, waitFor := "",
    parse := fun _ => none, cancelAt := none, tb := fun _ => true }

/-- Environment whose first read attempt succeeds under a 5s wait policy. -/
def envFirstSuccess : PollEnv :=
  { fn := fun _ => [], waitFor := "5s",
    parse := fun _ => some (5 * second), cancelAt := none, tb := fun _ => true }

/-- Environment with a malformed wait policy and a constantly failing
read. -/
def envMalformed : PollEnv :=
  { fn := fun _ => remoteFailure, waitFor := "bogus",
    parse := fun _ => none, cancelAt := none, tb := fun _ => true }

/-- A sample stored tailnet-key resource state. -/
def sampleKeyData : KeyResourceData :=
  { id := "test", reusable := true, recreateIfInvalid := "", ephemeral := false,
    expiry := 3600, createdAt := "2024-01-01T00:00:00Z",
    expiresAt := "2024-04-01T00:00:00Z", description := "Example key",
    invalid := false, userID := "", preauthorized := true,
    tags := ["tag:server"] }

/-! Shared helper lemmas. -/

/-- When the first read attempt succeeds, the poller returns it at once:
one call, no time elapsed, no policy parse, no loop. -/
theorem readWithWaitFor_success_eq (env : PollEnv)
    (h : hasError (env.fn 0) = false) :
    readWithWaitFor env =
      { outcome := .readResult (env.fn 0), calls := 1, retTime := 0,
        parsedPolicy := false, enteredLoop := false } := by
  simp [readWithWaitFor, h]

/-! Claim theorems. -/

/-- C3: shouldRecreateIfInvalid satisfies, for every value of reusable:
policy "always" returns true; policy "never" returns false; unset policy
(the empty string) returns the value of reusable. -/
theorem shouldRecreateIfInvalid_spec :
    ∀ reusable : Bool,
      shouldRecreateIfInvalid reusable "always" = true ∧
      shouldRecreateIfInvalid reusable "never" = false ∧
      shouldRecreateIfInvalid reusable "" = reusable := by decide

/-- C5: the recreate-decision diff returns no directive (nil error, no
ForceNew) without invoking the remote lookup — zero lookup calls — both
when the policy is unchanged and when the changed policy makes the
decider answer false, for every lookup behaviour. -/
theorem resourceTailnetKeyDiff_noLookup (d : DiffState) (lookup : Lookup)
    (h : d.oldRecreateIfInvalid = d.recreateIfInvalid ∨
      shouldRecreateIfInvalid d.reusable d.recreateIfInvalid = false) :
    resourceTailnetKeyDiff d lookup =
      { err := none, forceNew := false, lookupCalls := 0 } := by
  rcases h with h | h
  · simp [resourceTailnetKeyDiff, h]
  · by_cases h2 : d.oldRecreateIfInvalid = d.recreateIfInvalid
    · simp [resourceTailnetKeyDiff, h2]
    · simp [resourceTailnetKeyDiff, h2, h]

/-- Witness for C5: a changed policy ("always" to "never") with the
decider answering false yields no directive and zero lookup calls. -/
theorem resourceTailnetKeyDiff_noLookup_witness :
    resourceTailnetKeyDiff ⟨"always", "never", true⟩ .notFound =
      { err := none, forceNew := false, lookupCalls := 0 } :=
  resourceTailnetKeyDiff_noLookup ⟨"always", "never", true⟩ .notFound
    (Or.inr (by decide))

/-- C2 counterexample: with the policy changed ("never" to unset), the
decider answering true, and the remote lookup failing with an error that
is not a not-found error, the diff performs the lookup but returns nil —
the error is dropped, not surfaced as a returned error. -/
theorem resourceTailnetKeyDiff_swallows_cex :
    resourceTailnetKeyDiff ⟨"never", "", true⟩
        (.otherError "remote lookup failed") =
      { err := none, forceNew := false, lookupCalls := 1 } := by decide

/-- C2 amended: when the policy changed and the decider answers true, a
remote-lookup error that is not a not-found error is never treated as a
recreation trigger (ForceNew is not called), and the diff returns nil —
the error is silently dropped rather than surfaced to the caller. -/
theorem resourceTailnetKeyDiff_otherError (d : DiffState) (e : String)
    (hne : d.oldRecreateIfInvalid ≠ d.recreateIfInvalid)
    (hrec : shouldRecreateIfInvalid d.reusable d.recreateIfInvalid = true) :
    resourceTailnetKeyDiff d (.otherError e) =
      { err := none, forceNew := false, lookupCalls := 1 } := by
  simp [resourceTailnetKeyDiff, hne, hrec]

/-- Witness for the amended C2 at a concrete changed policy and lookup
error. -/
theorem resourceTailnetKeyDiff_otherError_witness :
    resourceTailnetKeyDiff ⟨"never", "", true⟩ (.otherError "boom") =
      { err := none, forceNew := false, lookupCalls := 1 } :=
  resourceTailnetKeyDiff_otherError ⟨"never", "", true⟩ "boom"
    (by decide) (by decide)

/-- C4: whenever the first invocation of the read operation succeeds, the
poller returns that success immediately — one call, zero elapsed time, the
wait policy never parsed, the timer loop never entered — for every wait
policy. -/
theorem readWithWaitFor_firstSuccess (env : PollEnv)
    (h : hasError (env.fn 0) = false) :
    readWithWaitFor env =
      { outcome := .readResult (env.fn 0), calls := 1, retTime := 0,
        parsedPolicy := false, enteredLoop := false } :=
  readWithWaitFor_success_eq env h

/-- Witness for C4 at a concrete environment with a non-empty wait policy
and a successful first read. -/
theorem readWithWaitFor_firstSuccess_witness :
    readWithWaitFor envFirstSuccess =
      { outcome := .readResult (envFirstSuccess.fn 0), calls := 1,
        retTime := 0, parsedPolicy := false, enteredLoop := false } :=
  readWithWaitFor_firstSuccess envFirstSuccess rfl

/-- C1 counterexample: with an empty wait policy and a failing first read,
the poller invokes the read operation twice, not exactly once. -/
theorem readWithWaitFor_emptyWait_cex :
    envEmptyWait.waitFor = "" ∧ (readWithWaitFor envEmptyWait).calls = 2 := by
  decide

/-- C1 amended: with an empty wait policy, a successful first invocation
is returned after exactly one call; a failing first invocation is followed
by exactly one further call, and the poller returns that second
invocation's outcome (two calls in total). -/
theorem readWithWaitFor_emptyWait (env : PollEnv) (h : env.waitFor = "") :
    (hasError (env.fn 0) = false →
      readWithWaitFor env =
        { outcome := .readResult (env.fn 0), calls := 1, retTime := 0,
          parsedPolicy := false, enteredLoop := false }) ∧
    (hasError (env.fn 0) = true →
      readWithWaitFor env =
        { outcome := .readResult (env.fn 1), calls := 2, retTime := 0,
          parsedPolicy := false, enteredLoop := false }) := by
  constructor
  · intro hs
    exact readWithWaitFor_success_eq env hs
  · intro hf
    simp [readWithWaitFor, hf, h]

/-- Witness for the amended C1: the failing-first-read branch at a
concrete environment with an empty wait policy. -/
theorem readWithWaitFor_emptyWait_witness :
    envEmptyWait.waitFor = "" ∧
    readWithWaitFor envEmptyWait =
      { outcome := .readResult (envEmptyWait.fn 1), calls := 2, retTime := 0,
        parsedPolicy := false, enteredLoop := false } :=
  ⟨rfl, (readWithWaitFor_emptyWait envEmptyWait rfl).2 rfl⟩

/-- C9: for a malformed wait policy (its parse fails), the poller reports
the parse failure only when the first read attempt fails: a parse-failure
outcome implies the first attempt failed; a successful first attempt is
returned as-is with the policy never parsed; and when the first attempt
fails and the policy is non-empty the parse failure is the outcome. -/
theorem readWithWaitFor_malformedWait (env : PollEnv)
    (hp : env.parse env.waitFor = none) :
    ((readWithWaitFor env).outcome = .parseFailure env.waitFor →
      hasError (env.fn 0) = true) ∧
    (hasError (env.fn 0) = false →
      (readWithWaitFor env).outcome = .readResult (env.fn 0) ∧
      (readWithWaitFor env).parsedPolicy = false) ∧
    (hasError (env.fn 0) = true → env.waitFor ≠ "" →
      (readWithWaitFor env).outcome = .parseFailure env.waitFor) := by
  cases hh : hasError (env.fn 0) with
  | true =>
      refine ⟨fun _ => rfl, fun hs => absurd hs (by simp [hh]), ?_⟩
      intro _ hw
      simp [readWithWaitFor, hh, hw, hp]
  | false =>
      have he := readWithWaitFor_success_eq env hh
      refine ⟨fun hout => ?_, fun _ => by rw [he]; exact ⟨rfl, rfl⟩,
        fun ht => absurd ht (by simp [hh])⟩
      rw [he] at hout
      exact PollOutcome.noConfusion hout

/-- Witness for C9: a malformed policy with a failing first read yields
the parse-failure outcome. -/
theorem readWithWaitFor_malformedWait_witness :
    envMalformed.parse envMalformed.waitFor = none ∧
    (readWithWaitFor envMalformed).outcome =
      .parseFailure envMalformed.waitFor :=
  ⟨rfl, (readWithWaitFor_malformedWait envMalformed rfl).2.2 rfl (by decide)⟩

/-- C10: the read clears the resource ID with a success outcome exactly
when the remote key is not found or is marked invalid and the recreate
decider answers true; and a not-found key with the decider answering false
yields success with the stored state, including the ID, unchanged.  The
stored ID and the remote key's ID are assumed non-empty. -/
theorem resourceTailnetKeyRead_removal (d : KeyResourceData) (lookup : Lookup)
    (hid : d.id ≠ "")
    (hkid : ∀ k, lookup = .found k → k.id ≠ "") :
    (((resourceTailnetKeyRead d lookup).diags = none ∧
      (resourceTailnetKeyRead d lookup).data.id = "") ↔
      ((lookup = .notFound ∨ ∃ k, lookup = .found k ∧ k.invalid = true) ∧
        shouldRecreateIfInvalid d.reusable d.recreateIfInvalid = true)) ∧
    (lookup = .notFound →
      shouldRecreateIfInvalid d.reusable d.recreateIfInvalid = false →
      resourceTailnetKeyRead d lookup = { data := d, diags := none }) := by
  cases lookup with
  | notFound =>
      cases hr : shouldRecreateIfInvalid d.reusable d.recreateIfInvalid with
      | true => simp [resourceTailnetKeyRead, hr]
      | false => simp [resourceTailnetKeyRead, hr, hid]
  | otherError e => simp [resourceTailnetKeyRead]
  | found k =>
      have hkne : k.id ≠ "" := hkid k rfl
      cases hr : shouldRecreateIfInvalid d.reusable d.recreateIfInvalid with
      | true =>
          cases hi : k.invalid with
          | true => simp [resourceTailnetKeyRead, hr, hi]
          | false =>
              by_cases ht : k.keyType = "auth"
              · simp [resourceTailnetKeyRead, hr, hi, ht, hkne]
              · simp [resourceTailnetKeyRead, hr, hi, ht]
      | false =>
          by_cases ht : k.keyType = "auth"
          · simp [resourceTailnetKeyRead, hr, ht, hkne]
          · simp [resourceTailnetKeyRead, hr, ht]

/-- Witness for C10: a not-found lookup on a reusable key with an unset
policy (decider answers true) removes the resource with success. -/
theorem resourceTailnetKeyRead_removal_witness :
    (((resourceTailnetKeyRead sampleKeyData .notFound).diags = none ∧
      (resourceTailnetKeyRead sampleKeyData .notFound).data.id = "") ↔
      ((Lookup.notFound = Lookup.notFound ∨
        ∃ k, Lookup.notFound = Lookup.found k ∧ k.invalid = true) ∧
        shouldRecreateIfInvalid sampleKeyData.reusable
          sampleKeyData.recreateIfInvalid = true)) ∧
    (Lookup.notFound = Lookup.notFound →
      shouldRecreateIfInvalid sampleKeyData.reusable
        sampleKeyData.recreateIfInvalid = false →
      resourceTailnetKeyRead sampleKeyData .notFound =
        { data := sampleKeyData, diags := none }) :=
  resourceTailnetKeyRead_removal sampleKeyData .notFound (by decide)
    (fun k h => Lookup.noConfusion h)

/-! Lemmas about the retry loop, proved by induction on the event fuel.
The adequacy invariant `n * second ≤ D ∧ D < (n + fuel) * second` says the
interval ticks consumed so far have not passed the deadline and the fuel
covers every interval tick that can still fire before it. -/

/-- Positivity of the interval-ticker period. -/
theorem second_pos : 0 < second := by decide

/-- Without a pending cancellation the cancellation branch never wins. -/
theorem cancelWins_none (D tInt : Nat) : cancelWins none D tInt = false := rfl

/-- With a constantly failing read operation and no cancellation, every
exit of the retry loop returns the diagnostics of the most recent
invocation of the read operation, and the invocation count never
decreases. -/
theorem pollLoop_allFail (env : PollEnv) (D : Nat)
    (hf : ∀ k, hasError (env.fn k) = true) (hc : env.cancelAt = none) :
    ∀ fuel n calls d, d = env.fn (calls - 1) →
      (pollLoop env D fuel n calls d).outcome =
        .readResult (env.fn ((pollLoop env D fuel n calls d).calls - 1)) ∧
      calls ≤ (pollLoop env D fuel n calls d).calls := by
  intro fuel
  induction fuel with
  | zero =>
      intro n calls d hd
      simp [pollLoop, hd]
  | succ fuel ih =>
      intro n calls d hd
      rw [pollLoop]
      simp only [hc, cancelWins_none, Bool.false_eq_true, if_false]
      by_cases hm : maxWins (env.tb n) D ((n + 1) * second) = true
      · simp [hm, hd]
      · simp only [hm, Bool.false_eq_true, if_false, hf calls, if_true]
        have h := ih (n + 1) (calls + 1) (env.fn calls) (by simp)
        exact ⟨h.1, Nat.le_trans (Nat.le_succ calls) h.2⟩

/-- With a constantly failing read operation and no cancellation, the
retry loop exits via the deadline ticker: it returns exactly at time `D`,
and consumes at most `D / second` interval ticks (each performing one
invocation). -/
theorem pollLoop_allFail_deadline (env : PollEnv) (D : Nat)
    (hf : ∀ k, hasError (env.fn k) = true) (hc : env.cancelAt = none) :
    ∀ fuel n calls d, n * second ≤ D → D < (n + fuel) * second →
      (pollLoop env D fuel n calls d).retTime = D ∧
      (pollLoop env D fuel n calls d).calls + n ≤ calls + D / second := by
  intro fuel
  induction fuel with
  | zero =>
      intro n calls d h1 h2
      rw [Nat.add_zero] at h2
      exact absurd h2 (Nat.not_lt.mpr h1)
  | succ fuel ih =>
      intro n calls d h1 h2
      rw [pollLoop]
      simp only [hc, cancelWins_none, Bool.false_eq_true, if_false]
      by_cases hm : maxWins (env.tb n) D ((n + 1) * second) = true
      · have hn : n ≤ D / second := (Nat.le_div_iff_mul_le second_pos).mpr h1
        simp only [hm, if_true]
        exact ⟨by simp, by omega⟩
      · have hnd : ¬ D < (n + 1) * second := fun hlt => hm (by simp [maxWins, hlt])
        have hint : (n + 1) * second ≤ D := Nat.le_of_not_lt hnd
        simp only [hm, Bool.false_eq_true, if_false, hf calls, if_true]
        have h2' : D < (n + 1 + fuel) * second := by
          have he : n + 1 + fuel = n + (fuel + 1) := by omega
          rw [he]
          exact h2
        have h := ih (n + 1) (calls + 1) (env.fn calls) hint h2'
        exact ⟨h.1, by omega⟩

/-- With a constantly failing read operation and a cancellation firing no
later than the deadline, the retry loop exits with the cancellation
outcome, at the cancellation time. -/
theorem pollLoop_cancelled (env : PollEnv) (D c : Nat)
    (hf : ∀ k, hasError (env.fn k) = true) (hc : env.cancelAt = some c)
    (hcD : c ≤ D) :
    ∀ fuel n calls d, n * second ≤ D → D < (n + fuel) * second →
      (pollLoop env D fuel n calls d).outcome = .cancelled ∧
      (pollLoop env D fuel n calls d).retTime = c := by
  intro fuel
  induction fuel with
  | zero =>
      intro n calls d h1 h2
      rw [Nat.add_zero] at h2
      exact absurd h2 (Nat.not_lt.mpr h1)
  | succ fuel ih =>
      intro n calls d h1 h2
      rw [pollLoop]
      by_cases hct : c ≤ (n + 1) * second
      · have hcw : cancelWins env.cancelAt D ((n + 1) * second) = true := by
          simp [cancelWins, hc, hcD, hct]
        simp only [hcw, if_true]
        exact ⟨by simp, by simp [hc]⟩
      · have hcw : cancelWins env.cancelAt D ((n + 1) * second) = false := by
          simp [cancelWins, hc, hct]
        have hint : (n + 1) * second ≤ D := by
          have : (n + 1) * second < c := Nat.lt_of_not_le hct
          omega
        have hmf : maxWins (env.tb n) D ((n + 1) * second) = false := by
          have hnd : ¬ D < (n + 1) * second := Nat.not_lt.mpr hint
          have hne : ¬ D = (n + 1) * second := by omega
          simp [maxWins, hnd, hne]
        simp only [hcw, Bool.false_eq_true, if_false, hmf, hf calls, if_true]
        have h2' : D < (n + 1 + fuel) * second := by
          have he : n + 1 + fuel = n + (fuel + 1) := by omega
          rw [he]
          exact h2
        exact ih (n + 1) (calls + 1) (env.fn calls) hint h2'

/-- Reduction of the poller to the retry loop when the first attempt
fails, the wait policy is non-empty and parses to a positive duration. -/
theorem readWithWaitFor_loop_eq (env : PollEnv) (D : Nat)
    (hw : env.waitFor ≠ "") (hp : env.parse env.waitFor = some D)
    (hD : 0 < D) (h0 : hasError (env.fn 0) = true) :
    readWithWaitFor env = pollLoop env D (D / second + 2) 0 1 (env.fn 0) := by
  have hD0 : ¬ D = 0 := by omega
  simp [readWithWaitFor, h0, hw, hp, hD0]

/-- Adequate fuel for the top-level loop invocation. -/
theorem fuel_adequate (D : Nat) : D < (0 + (D / second + 2)) * second := by
  simp only [Nat.zero_add, second]
  omega

/-- Environment with a constantly failing read under a 2s wait policy and
no cancellation. -/
def envFailing : PollEnv :=
  { fn := fun _ => remoteFailure, waitFor := "2s",
    parse := fun _ => some (2 * second), cancelAt := none, tb := fun _ => true }

/-- Environment with a constantly failing read under a 5s wait policy,
cancelled 200ms in. -/
def envCancelled : PollEnv :=
  { fn := fun _ => remoteFailure, waitFor := "5s",
    parse := fun _ => some (5 * second), cancelAt := some 200000000,
    tb := fun _ => true }

/-- Environment whose wait policy parses to a zero duration (for example
the string "0s") with a constantly failing read. -/
def envZeroWait : PollEnv :=
  { fn := fun _ => remoteFailure, waitFor := "0s",
    parse := fun _ => some 0, cancelAt := none, tb := fun _ => true }

/-- C6: when the deadline elapses without any successful read (a
constantly failing read, no cancellation, a non-empty policy parsed to a
positive duration), the poller's outcome is the diagnostics of the most
recent actual invocation of the read operation — a read result, never a
synthesized timeout error — and it returns exactly at the deadline. -/
theorem readWithWaitFor_deadline_lastFailure (env : PollEnv) (D : Nat)
    (hw : env.waitFor ≠ "") (hp : env.parse env.waitFor = some D)
    (hD : 0 < D) (hf : ∀ k, hasError (env.fn k) = true)
    (hc : env.cancelAt = none) :
    (readWithWaitFor env).outcome =
      .readResult (env.fn ((readWithWaitFor env).calls - 1)) ∧
    1 ≤ (readWithWaitFor env).calls ∧
    (readWithWaitFor env).retTime = D := by
  rw [readWithWaitFor_loop_eq env D hw hp hD (hf 0)]
  have h1 := pollLoop_allFail env D hf hc (D / second + 2) 0 1 (env.fn 0) rfl
  have h2 := pollLoop_allFail_deadline env D hf hc (D / second + 2) 0 1
    (env.fn 0) (by simp) (fuel_adequate D)
  exact ⟨h1.1, h1.2, h2.1⟩

/-- Witness for C6 at a concrete constantly failing environment with a 2s
policy. -/
theorem readWithWaitFor_deadline_lastFailure_witness :
    (readWithWaitFor envFailing).outcome =
      .readResult (envFailing.fn ((readWithWaitFor envFailing).calls - 1)) ∧
    1 ≤ (readWithWaitFor envFailing).calls ∧
    (readWithWaitFor envFailing).retTime = 2 * second :=
  readWithWaitFor_deadline_lastFailure envFailing (2 * second) (by decide)
    rfl (by decide) (fun _ => rfl) rfl

/-- C7: a cancellation firing strictly before the deadline while the read
operation keeps failing makes the poller return the cancellation outcome
at the cancellation time; that outcome is distinct from the wait-policy
parse failure and from the last remote-read failure, and it is not the
deadline return. -/
theorem readWithWaitFor_cancelled (env : PollEnv) (D c : Nat)
    (hw : env.waitFor ≠ "") (hp : env.parse env.waitFor = some D)
    (hf : ∀ k, hasError (env.fn k) = true) (hc : env.cancelAt = some c)
    (hcD : c < D) :
    (readWithWaitFor env).outcome = .cancelled ∧
    (readWithWaitFor env).retTime = c ∧
    (readWithWaitFor env).outcome ≠ .parseFailure env.waitFor ∧
    (readWithWaitFor env).outcome ≠
      .readResult (env.fn ((readWithWaitFor env).calls - 1)) := by
  have hD : 0 < D := by omega
  rw [readWithWaitFor_loop_eq env D hw hp hD (hf 0)]
  have h := pollLoop_cancelled env D c hf hc (by omega) (D / second + 2) 0 1
    (env.fn 0) (by simp) (fuel_adequate D)
  refine ⟨h.1, h.2, ?_, ?_⟩
  · rw [h.1]
    exact fun hx => PollOutcome.noConfusion hx
  · rw [h.1]
    exact fun hx => PollOutcome.noConfusion hx

/-- Witness for C7: cancellation 200ms into a 5s policy with a constantly
failing read. -/
theorem readWithWaitFor_cancelled_witness :
    (readWithWaitFor envCancelled).outcome = .cancelled ∧
    (readWithWaitFor envCancelled).retTime = 200000000 ∧
    (readWithWaitFor envCancelled).outcome ≠
      .parseFailure envCancelled.waitFor ∧
    (readWithWaitFor envCancelled).outcome ≠
      .readResult (envCancelled.fn ((readWithWaitFor envCancelled).calls - 1)) :=
  readWithWaitFor_cancelled envCancelled (5 * second) 200000000 (by decide)
    rfl (fun _ => rfl) rfl (by decide)

/-- C8 counterexample: a wait policy that parses to the zero duration (for
example "0s") with a constantly failing read makes the ticker constructor
panic, so the poller does not return the retained read failure at all. -/
theorem readWithWaitFor_zeroDuration_cex :
    envZeroWait.parse envZeroWait.waitFor = some 0 ∧
    hasError (envZeroWait.fn 0) = true ∧
    (readWithWaitFor envZeroWait).outcome = .panicked ∧
    (readWithWaitFor envZeroWait).outcome ≠
      .readResult (envZeroWait.fn ((readWithWaitFor envZeroWait).calls - 1)) := by
  decide

/-- C8 amended: for every positive parsed wait duration D and constantly
failing read operation (no cancellation), the poller returns no earlier
than D after entering the retry phase, and performs at most
ceil(D / 1s) + 1 invocations in total; a zero parsed duration instead
panics in the ticker constructor. -/
theorem readWithWaitFor_failBounds (env : PollEnv) (D : Nat)
    (hw : env.waitFor ≠ "") (hp : env.parse env.waitFor = some D)
    (hD : 0 < D) (hf : ∀ k, hasError (env.fn k) = true)
    (hc : env.cancelAt = none) :
    D ≤ (readWithWaitFor env).retTime ∧
    (readWithWaitFor env).calls ≤ (D + second - 1) / second + 1 := by
  rw [readWithWaitFor_loop_eq env D hw hp hD (hf 0)]
  have h := pollLoop_allFail_deadline env D hf hc (D / second + 2) 0 1
    (env.fn 0) (by simp) (fuel_adequate D)
  have hceil : D / second ≤ (D + second - 1) / second :=
    Nat.div_le_div_right (by have hs := second_pos; omega)
  have hcalls :
      (pollLoop env D (D / second + 2) 0 1 (env.fn 0)).calls ≤
        D / second + 1 := by omega
  exact ⟨Nat.le_of_eq h.1.symm,
    Nat.le_trans hcalls (Nat.add_le_add_right hceil 1)⟩

/-- Witness for the amended C8 at a concrete 2s policy with a constantly
failing read. -/
theorem readWithWaitFor_failBounds_witness :
    2 * second ≤ (readWithWaitFor envFailing).retTime ∧
    (readWithWaitFor envFailing).calls ≤
      (2 * second + second - 1) / second + 1 :=
  readWithWaitFor_failBounds envFailing (2 * second) (by decide) rfl
    (by decide) (fun _ => rfl) rfl

end TailscaleProvider
